import Mathlib

/-!
Verification of the brute-force engine in `src/BrootFile.py`.

The embedding below translates the engine's data model and control flow into
Lean. Python's `str.strip()` is modelled by `pyStrip`; the format-specific
check performed by the body of `UniversalBruteForcer.try_password`
(lines 190-219) is abstracted as a function `dispatch : String → PyResult`
where `PyResult.ret b` models the dispatch returning the boolean `b`
(falling off the end of the if/elif chain is `ret false`, since control then
reaches the final `return False`) and `PyResult.exn` models the dispatch
raising an exception that escapes into the handler at line 220.

The handler at line 220 is `except (CredentialsError, RuntimeError, Exception)`.
The name `CredentialsError` is only bound when the `pykeepass` import at the
top of the file succeeded (`KDBX_SUPPORT`); when it is unbound, evaluating the
tuple of the except clause raises `NameError`, which propagates out of
`try_password` instead of being swallowed. The boolean `kdbx` parameter of
`tryPassword` records whether that import succeeded.
-/

namespace BrootFile

/-- Python's `str.strip()` on the character list: drop leading and trailing
whitespace characters. -/
def stripChars (l : List Char) : List Char :=
  ((l.dropWhile Char.isWhitespace).reverse.dropWhile Char.isWhitespace).reverse

/-- Python's `str.strip()` (used at lines 183, 248, 265, 285-286):
remove leading and trailing whitespace. -/
def pyStrip (s : String) : String := ⟨stripChars s.data⟩

/-- Outcome of the format-specific password check invoked by
`try_password` (lines 190-219): it either returns a boolean or raises. -/
inductive PyResult
  | ret (b : Bool)
  | exn
  deriving DecidableEq

/-- Result of one call of `try_password` (lines 181-231): the updated value of
`self.attempts` together with either the returned boolean or the fact that an
exception escaped (the `NameError` raised while evaluating the except clause
at line 220 when `CredentialsError` is unbound). -/
inductive TryOut
  | ret (b : Bool)
  | raised
  deriving DecidableEq

/-- `UniversalBruteForcer.try_password` (lines 181-231).
`password = password.strip()`; if the stripped password is empty or
`self.found` is already true it returns `False` without touching `attempts`
(lines 183-185); otherwise `attempts` is incremented (lines 187-188) before
the dispatch runs. An exception from the dispatch is swallowed (→ `False`)
exactly when `kdbx` is true; otherwise the except clause itself raises
`NameError` (line 220). -/
def tryPassword (kdbx : Bool) (dispatch : String → PyResult) (found : Bool)
    (attempts : Nat) (raw : String) : Nat × TryOut :=
  if pyStrip raw = "" ∨ found = true then (attempts, .ret false)
  else
    match dispatch (pyStrip raw) with
    | .ret b => (attempts + 1, .ret b)
    | .exn => (attempts + 1, if kdbx then .ret false else .raised)

/-- The fields of `UniversalBruteForcer` that the engine mutates during a run
(lines 52-54): `found`, `password`, `attempts`. -/
structure BFState where
  found : Bool
  password : Option String
  attempts : Nat
  deriving DecidableEq

/-- Initial shared state built by `UniversalBruteForcer.__init__`
(lines 52-54): `found = False`, `password = None`, `attempts = 0`. -/
def initState : BFState := ⟨false, none, 0⟩

/-- Result of a single-threaded run: either the loop of `brute_force_single`
ran to completion / broke out (`finished`), or an uncaught exception escaped a
trial and aborted the run (`crashed`) — the state component is the shared
state at that moment. -/
inductive RunResult
  | finished (s : BFState)
  | crashed (s : BFState)
  deriving DecidableEq

/-- The candidate loop of `brute_force_single` (lines 243-250): for each line,
break if `found`; call `try_password`; on `True` set `password` to the
stripped line, set `found`, and break. `KeyboardInterrupt` aside, the only
exception the surrounding `try` catches is `KeyboardInterrupt`, so a raising
trial crashes the run. -/
def singleLoop (kdbx : Bool) (dispatch : String → PyResult) :
    BFState → List String → RunResult
  | s, [] => .finished s
  | s, raw :: rest =>
    if s.found then .finished s
    else
      match tryPassword kdbx dispatch s.found s.attempts raw with
      | (att, .ret true) =>
          .finished { found := true, password := some (pyStrip raw), attempts := att }
      | (att, .ret false) => singleLoop kdbx dispatch { s with attempts := att } rest
      | (att, .raised) => .crashed { s with attempts := att }

/-- `brute_force_single` (lines 233-255) on the list of lines of the wordlist. -/
def singleRun (kdbx : Bool) (dispatch : String → PyResult) (lines : List String) :
    RunResult :=
  singleLoop kdbx dispatch initState lines

/-- Number of lines of a wordlist that are non-empty after stripping. -/
def nonEmptyCount : List String → Nat
  | [] => 0
  | l :: ls => (if pyStrip l = "" then 0 else 1) + nonEmptyCount ls

/-- The wordlist-loading loop of `brute_force_multi` (lines 283-286): each
line is stripped and, when non-empty, put into the shared queue in file
order. -/
def loadQueue (lines : List String) : List String :=
  (lines.map pyStrip).filter (fun l => !(l == ""))

/-- Control position of one worker thread (function `worker`, lines 257-268),
at the granularity of the atomic actions of the interleaving model:
`idle` is the `while` loop head (line 259); `popped raw` means
`password_queue.get_nowait()` returned `raw` (line 261) and the call of
`try_password` is next; `tried raw ok` means `try_password(raw)` returned
`ok` (line 262) and the conditional lock-guarded update (lines 263-265) is
next; `done` means the thread has left the loop (or died from an uncaught
exception escaping `try_password`). -/
inductive WStatus
  | idle
  | popped (raw : String)
  | tried (raw : String) (ok : Bool)
  | done
  deriving DecidableEq

/-- Shared state of `brute_force_multi` (lines 270-317): the mutated
`UniversalBruteForcer` fields, the shared `password_queue`, and the control
position of each worker thread. -/
structure MultiConfig where
  found : Bool
  password : Option String
  attempts : Nat
  queue : List String
  workers : List WStatus
  deriving DecidableEq

/-- Initial configuration of `brute_force_multi` with `n` worker threads
(lines 272, 281-300): fresh shared state, the queue loaded from the wordlist,
every worker at its loop head. -/
def initMulti (lines : List String) (n : Nat) : MultiConfig :=
  ⟨false, none, 0, loadQueue lines, List.replicate n .idle⟩

/-- One atomic action of worker `i` (function `worker`, lines 257-268).
The granularity of the model: the loop-condition check plus `get_nowait`
(lines 259-261) is one atomic step, the whole call of `try_password`
(line 262) is one atomic step, and the lock-guarded block
`found = True; password = raw.strip()` (lines 263-265) is one atomic step
(it is executed under `brute_forcer.lock`). Note that the worker performs
that write unconditionally once `try_password` returned `True` — it does not
re-check `found` inside the critical section. A worker whose `try_password`
raises dies (the `try` at line 260 only catches `queue.Empty`), leaving the
other threads and the shared state as they are. -/
def wstep (kdbx : Bool) (dispatch : String → PyResult) (c : MultiConfig)
    (i : Nat) : MultiConfig :=
  match c.workers.get? i with
  | none => c
  | some .done => c
  | some .idle =>
    if c.found then { c with workers := c.workers.set i .done }
    else
      match c.queue with
      | [] => { c with workers := c.workers.set i .done }
      | raw :: rest =>
          { c with queue := rest, workers := c.workers.set i (.popped raw) }
  | some (.popped raw) =>
      match tryPassword kdbx dispatch c.found c.attempts raw with
      | (att, .ret b) =>
          { c with attempts := att, workers := c.workers.set i (.tried raw b) }
      | (att, .raised) =>
          { c with attempts := att, workers := c.workers.set i .done }
  | some (.tried raw true) =>
      { c with found := true, password := some (pyStrip raw),
               workers := c.workers.set i .idle }
  | some (.tried _ false) => { c with workers := c.workers.set i .idle }

/-- A scheduling choice: run one atomic action of worker `i`, or run the
`KeyboardInterrupt` handler of the main thread of `brute_force_multi`
(lines 309-311), which unconditionally executes `brute_forcer.found = False`. -/
inductive Choice
  | work (i : Nat)
  | cancel
  deriving DecidableEq

/-- One step of the interleaved execution of `brute_force_multi` under a
scheduling choice. -/
def mstep (kdbx : Bool) (dispatch : String → PyResult) (c : MultiConfig) :
    Choice → MultiConfig
  | .work i => wstep kdbx dispatch c i
  | .cancel => { c with found := false }

/-- Execution of `brute_force_multi` under an explicit schedule: the
configuration reached after performing the listed choices in order. -/
def runSched (kdbx : Bool) (dispatch : String → PyResult) (c : MultiConfig) :
    List Choice → MultiConfig
  | [] => c
  | ch :: rest => runSched kdbx dispatch (mstep kdbx dispatch c ch) rest

/-- A configuration is reachable in a multi-threaded run iff some schedule
produces it from the initial configuration. -/
def MultiReach (kdbx : Bool) (dispatch : String → PyResult)
    (c0 c : MultiConfig) : Prop :=
  ∃ sched : List Choice, runSched kdbx dispatch c0 sched = c

/-! ### Helper lemmas about the sequential engine -/

lemma tryPassword_eq_ret_true {kdbx : Bool} {dispatch : String → PyResult}
    {found : Bool} {attempts att : Nat} {raw : String}
    (h : tryPassword kdbx dispatch found attempts raw = (att, .ret true)) :
    pyStrip raw ≠ "" ∧ found = false ∧
      dispatch (pyStrip raw) = .ret true ∧ att = attempts + 1 := by
  unfold tryPassword at h
  split at h
  · simp at h
  · rename_i hc
    push_neg at hc
    obtain ⟨hne, hnf⟩ := hc
    cases hd : dispatch (pyStrip raw) with
    | ret b =>
        rw [hd] at h
        injection h with h1 h2
        injection h2 with hb
        subst hb
        exact ⟨hne, by simpa using hnf, rfl, h1.symm⟩
    | exn =>
        rw [hd] at h
        cases kdbx <;> simp at h

lemma tryPassword_skip {kdbx : Bool} {dispatch : String → PyResult}
    {found : Bool} {attempts : Nat} {raw : String}
    (h : pyStrip raw = "" ∨ found = true) :
    tryPassword kdbx dispatch found attempts raw = (attempts, .ret false) := by
  unfold tryPassword
  rw [if_pos h]

lemma tryPassword_incorrect {kdbx : Bool} {dispatch : String → PyResult}
    {attempts : Nat} {raw : String}
    (hne : pyStrip raw ≠ "")
    (h : dispatch (pyStrip raw) = .ret false ∨
         (dispatch (pyStrip raw) = .exn ∧ kdbx = true)) :
    tryPassword kdbx dispatch false attempts raw = (attempts + 1, .ret false) := by
  unfold tryPassword
  rw [if_neg (by simp [hne])]
  rcases h with h | ⟨h, hk⟩ <;> rw [h]
  rw [hk]
  simp

/-- Walking the sequential loop over lines none of which is verified
`Correct` (and none of which crashes the run): the loop finishes with
`found` still false and `attempts` advanced by the number of non-empty
stripped lines. -/
lemma singleLoop_exhaust (kdbx : Bool) (dispatch : String → PyResult) :
    ∀ (lines : List String) (s : BFState), s.found = false →
    (∀ l ∈ lines, pyStrip l ≠ "" → dispatch (pyStrip l) ≠ .ret true) →
    (∀ l ∈ lines, pyStrip l ≠ "" → dispatch (pyStrip l) = .exn → kdbx = true) →
    singleLoop kdbx dispatch s lines
      = .finished ⟨false, s.password, s.attempts + nonEmptyCount lines⟩ := by
  intro lines
  induction lines with
  | nil =>
      intro s hs _ _
      cases s
      simp_all [singleLoop, nonEmptyCount]
  | cons l ls ih =>
      rintro ⟨sf, sp, sa⟩ hs hnc hnx
      have hsf : sf = false := hs
      subst hsf
      rw [singleLoop, if_neg (by simp)]
      by_cases hl : pyStrip l = ""
      · rw [tryPassword_skip (Or.inl hl)]
        show singleLoop kdbx dispatch ⟨false, sp, sa⟩ ls
          = .finished ⟨false, sp, sa + nonEmptyCount (l :: ls)⟩
        rw [ih ⟨false, sp, sa⟩ rfl
          (fun x hx => hnc x (List.mem_cons_of_mem l hx))
          (fun x hx => hnx x (List.mem_cons_of_mem l hx))]
        simp [nonEmptyCount, hl]
      · have hstep : tryPassword kdbx dispatch false sa l
            = (sa + 1, .ret false) := by
          refine tryPassword_incorrect hl ?_
          cases hd : dispatch (pyStrip l) with
          | ret b =>
              cases b
              · exact Or.inl rfl
              · exact absurd hd (hnc l (List.mem_cons_self l ls) hl)
          | exn => exact Or.inr ⟨rfl, hnx l (List.mem_cons_self l ls) hl hd⟩
        rw [hstep]
        show singleLoop kdbx dispatch ⟨false, sp, sa + 1⟩ ls
          = .finished ⟨false, sp, sa + nonEmptyCount (l :: ls)⟩
        rw [ih ⟨false, sp, sa + 1⟩ rfl
          (fun x hx => hnc x (List.mem_cons_of_mem l hx))
          (fun x hx => hnx x (List.mem_cons_of_mem l hx))]
        simp only [nonEmptyCount, if_neg hl]
        rw [Nat.add_assoc]

/-- If the sequential loop runs through a block of lines and comes out with
`found` still false, running it on that block followed by more lines
continues from the state it reached. -/
lemma singleLoop_append (kdbx : Bool) (dispatch : String → PyResult)
    (ys : List String) :
    ∀ (xs : List String) (s s' : BFState),
    singleLoop kdbx dispatch s xs = .finished s' → s'.found = false →
    singleLoop kdbx dispatch s (xs ++ ys) = singleLoop kdbx dispatch s' ys := by
  intro xs
  induction xs with
  | nil =>
      intro s s' h _
      rw [singleLoop] at h
      injection h with h
      subst h
      rfl
  | cons x xs ih =>
      intro s s' h hf
      by_cases hs : s.found = true
      · rw [singleLoop, if_pos hs] at h
        injection h with h
        subst h
        exact absurd hs (by simp [hf])
      · rw [singleLoop, if_neg hs] at h
        rw [List.cons_append, singleLoop, if_neg hs]
        rcases ht : tryPassword kdbx dispatch s.found s.attempts x with ⟨att, r⟩
        rw [ht] at h
        cases r with
        | ret b =>
            cases b
            · exact ih { s with attempts := att } s' h hf
            · injection h with h
              subst h
              simp at hf
        | raised => simp at h

lemma nonEmptyCount_le_length : ∀ ls : List String, nonEmptyCount ls ≤ ls.length := by
  intro ls
  induction ls with
  | nil => simp [nonEmptyCount]
  | cons l ls ih =>
      rw [nonEmptyCount]
      by_cases hl : pyStrip l = "" <;> simp [hl, List.length_cons] <;> omega

/-- The no-fabricated-success invariant on the shared state: when `found`
is set, the stored password is a non-empty string that the dispatch verifies
as correct. -/
def StateInv (dispatch : String → PyResult) (found : Bool)
    (password : Option String) : Prop :=
  found = true → ∃ p, password = some p ∧ p ≠ "" ∧ dispatch p = .ret true

/-- The sequential loop preserves the no-fabricated-success invariant, both
when it finishes and when a trial crashes it. -/
lemma singleLoop_inv (kdbx : Bool) (dispatch : String → PyResult) :
    ∀ (lines : List String) (s s' : BFState),
    StateInv dispatch s.found s.password →
    (singleLoop kdbx dispatch s lines = .finished s' ∨
     singleLoop kdbx dispatch s lines = .crashed s') →
    StateInv dispatch s'.found s'.password := by
  intro lines
  induction lines with
  | nil =>
      intro s s' hs h
      rcases h with h | h <;> rw [singleLoop] at h
      · injection h with h
        subst h
        exact hs
      · cases h
  | cons l ls ih =>
      intro s s' hs h
      by_cases hf : s.found = true
      · rcases h with h | h <;> rw [singleLoop, if_pos hf] at h
        · injection h with h
          subst h
          exact hs
        · cases h
      · rcases ht : tryPassword kdbx dispatch s.found s.attempts l with ⟨att, r⟩
        rcases h with h | h <;> rw [singleLoop, if_neg hf, ht] at h
        · cases r with
          | ret b =>
              cases b
              · exact ih { s with attempts := att } s' hs (Or.inl h)
              · injection h with h
                subst h
                obtain ⟨hne, _, hd, _⟩ := tryPassword_eq_ret_true ht
                exact fun _ => ⟨pyStrip l, rfl, hne, hd⟩
          | raised => cases h
        · cases r with
          | ret b =>
              cases b
              · exact ih { s with attempts := att } s' hs (Or.inr h)
              · cases h
          | raised =>
              injection h with h
              subst h
              exact hs

/-! ### Helper lemmas about the worker-pool engine -/

/-- Invariant on a worker's control position: a worker that obtained `True`
from `try_password` for candidate `raw` really had the dispatch verify the
stripped candidate as correct. -/
def statusOK (dispatch : String → PyResult) : WStatus → Prop
  | .tried raw true => pyStrip raw ≠ "" ∧ dispatch (pyStrip raw) = .ret true
  | _ => True

/-- The inductive invariant of the worker-pool engine: the shared state
satisfies the no-fabricated-success invariant, and every worker's control
position is consistent with the dispatch. -/
def MInv (dispatch : String → PyResult) (c : MultiConfig) : Prop :=
  StateInv dispatch c.found c.password ∧ ∀ w ∈ c.workers, statusOK dispatch w

lemma statusOK_set {dispatch : String → PyResult} {ws : List WStatus}
    (h : ∀ w ∈ ws, statusOK dispatch w) {i : Nat} {x : WStatus}
    (hx : statusOK dispatch x) : ∀ w ∈ ws.set i x, statusOK dispatch w :=
  fun w hw => (List.mem_or_eq_of_mem_set hw).elim (h w) (fun he => he ▸ hx)

/-- One worker action preserves the engine invariant. -/
lemma minv_wstep (kdbx : Bool) (dispatch : String → PyResult)
    (c : MultiConfig) (i : Nat) (h : MInv dispatch c) :
    MInv dispatch (wstep kdbx dispatch c i) := by
  obtain ⟨h1, h2⟩ := h
  have hOK : ∀ (x : WStatus), statusOK dispatch x →
      MInv dispatch { c with workers := c.workers.set i x } :=
    fun x hx => ⟨h1, statusOK_set h2 hx⟩
  have hOKatt : ∀ (x : WStatus) (att : Nat) (q : List String),
      statusOK dispatch x →
      MInv dispatch { c with attempts := att, queue := q,
                             workers := c.workers.set i x } :=
    fun x att q hx => ⟨h1, statusOK_set h2 hx⟩
  unfold wstep
  rcases hw : c.workers.get? i with _ | w
  · exact ⟨h1, h2⟩
  · cases w with
    | idle =>
        show MInv dispatch
          (if c.found = true then { c with workers := c.workers.set i .done }
           else
             match c.queue with
             | [] => { c with workers := c.workers.set i .done }
             | raw :: rest =>
                 { c with queue := rest,
                          workers := c.workers.set i (.popped raw) })
        by_cases hf : c.found = true
        · rw [if_pos hf]
          exact hOK .done trivial
        · rw [if_neg hf]
          rcases hq : c.queue with _ | ⟨raw, rest⟩
          · exact hOK .done trivial
          · exact hOKatt (.popped raw) c.attempts rest trivial
    | popped raw =>
        show MInv dispatch
          (match tryPassword kdbx dispatch c.found c.attempts raw with
           | (att, .ret b) =>
               { c with attempts := att,
                        workers := c.workers.set i (.tried raw b) }
           | (att, .raised) =>
               { c with attempts := att, workers := c.workers.set i .done })
        rcases ht : tryPassword kdbx dispatch c.found c.attempts raw with ⟨att, r⟩
        cases r with
        | ret b =>
            cases b
            · exact hOKatt (.tried raw false) att c.queue trivial
            · obtain ⟨hne, _, hd, _⟩ := tryPassword_eq_ret_true ht
              exact hOKatt (.tried raw true) att c.queue ⟨hne, hd⟩
        | raised => exact hOKatt .done att c.queue trivial
    | tried raw b =>
        cases b
        · exact hOK .idle trivial
        · have hmem : WStatus.tried raw true ∈ c.workers := List.get?_mem hw
          have hok : pyStrip raw ≠ "" ∧ dispatch (pyStrip raw) = .ret true :=
            h2 _ hmem
          show MInv dispatch
            { c with found := true, password := some (pyStrip raw),
                     workers := c.workers.set i .idle }
          exact ⟨fun _ => ⟨pyStrip raw, rfl, hok.1, hok.2⟩,
                 statusOK_set h2 trivial⟩
    | done => exact ⟨h1, h2⟩

/-- Any scheduling choice preserves the engine invariant; in particular the
`KeyboardInterrupt` reset of `found` only clears the flag and so keeps the
(conditional) invariant. -/
lemma minv_mstep (kdbx : Bool) (dispatch : String → PyResult)
    (c : MultiConfig) (ch : Choice) (h : MInv dispatch c) :
    MInv dispatch (mstep kdbx dispatch c ch) := by
  cases ch with
  | work i => exact minv_wstep kdbx dispatch c i h
  | cancel =>
      refine ⟨?_, h.2⟩
      intro hf
      cases hf

lemma minv_runSched (kdbx : Bool) (dispatch : String → PyResult) :
    ∀ (sched : List Choice) (c : MultiConfig), MInv dispatch c →
    MInv dispatch (runSched kdbx dispatch c sched) := by
  intro sched
  induction sched with
  | nil => intro c h; exact h
  | cons ch rest ih =>
      intro c h
      exact ih _ (minv_mstep kdbx dispatch c ch h)

lemma minv_init (kdbx : Bool) (dispatch : String → PyResult)
    (lines : List String) (n : Nat) : MInv dispatch (initMulti lines n) := by
  constructor
  · intro hf
    cases hf
  · intro w hw
    rw [List.eq_of_mem_replicate hw]
    trivial

/-- A worker action never lowers the `found` flag: every branch of `wstep`
either leaves `found` unchanged or sets it to `True`. -/
lemma wstep_found_mono (kdbx : Bool) (dispatch : String → PyResult)
    (c : MultiConfig) (i : Nat) (hf : c.found = true) :
    (wstep kdbx dispatch c i).found = true := by
  unfold wstep
  split
  · exact hf
  · exact hf
  · rw [if_pos hf]
    exact hf
  · split
    · exact hf
    · exact hf
  · rfl
  · exact hf

/-! ### Remaining collaborators touched by the claims -/

/-- `UniversalBruteForcer.detect_file_type` (lines 58-77), as a function of
the lowercased extension of the target path. -/
def detect_file_type (ext : String) : String :=
  if ext = ".kdbx" then "kdbx"
  else if ext = ".zip" ∨ ext = ".jar" ∨ ext = ".war" then "zip"
  else if ext = ".rar" then "rar"
  else if ext = ".7z" then "7z"
  else if ext = ".pdf" then "pdf"
  else if ext = ".docx" ∨ ext = ".xlsx" ∨ ext = ".pptx" ∨ ext = ".doc" ∨
          ext = ".xls" ∨ ext = ".ppt" then "office"
  else if ext = ".id_rsa" ∨ ext = ".ssh" ∨ ext = ".pem" ∨ ext = ".key" then "ssh"
  else "unknown"

/-! #### The `cmd` list literal of `try_password_7z` (lines 84-89)

Line 87 ends in the bare name `y` and line 88 is `self.target_file`, with no
comma between them. Inside brackets Python joins physical lines implicitly,
so the parser sees the identifier `y` directly followed by the identifier
`self`: no production of Python's expression grammar derives two juxtaposed
plain identifiers, and CPython rejects the whole module with `SyntaxError`
when it compiles the file — before a single statement runs. The defect is
therefore a compile-time error, not a runtime `NameError`. The definitions
below transcribe the exact source text of lines 84-89 and detect that
adjacency mechanically. -/

/-- The apostrophe character `U+0027`, used to rebuild the quotes of the
Python source text (string literals in this file do not contain it
directly). -/
def sq : Char := Char.ofNat 39

/-- Wrap a string in Python single quotes. -/
def quoted (s : String) : String := String.singleton sq ++ s ++ String.singleton sq

/-- Exact text of line 84 of `src/BrootFile.py`: 16 spaces, then the start
of the assignment of the bracketed list. -/
def srcLine84 : String := "                cmd = ["

/-- Exact text of line 85 (20 spaces of indentation, one trailing space). -/
def srcLine85 : String :=
  "                    " ++ quoted "7z" ++ ", " ++ quoted "x" ++ ", f" ++
    quoted "-p{password}" ++ ", "

/-- Exact text of line 86 (two trailing spaces). -/
def srcLine86 : String := "                    " ++ quoted "-y" ++ ",  "

/-- Exact text of line 87: the element `'-o' + tmpdir`, a comma, and the
bare name `y` with nothing after it. -/
def srcLine87 : String := "                    " ++ quoted "-o" ++ " + tmpdir, y"

/-- Exact text of line 88: `self.target_file`, with no comma before it on
line 87. -/
def srcLine88 : String := "                    self.target_file"

/-- Exact text of line 89: the closing bracket. -/
def srcLine89 : String := "                ]"

/-- Lines 84-89 of `src/BrootFile.py` joined by newlines: the whole `cmd`
list literal of `try_password_7z`. -/
def cmdLiteralRegion : String :=
  srcLine84 ++ "\n" ++ srcLine85 ++ "\n" ++ srcLine86 ++ "\n" ++ srcLine87 ++
    "\n" ++ srcLine88 ++ "\n" ++ srcLine89

/-- A Python token of the fragment: a (possibly prefixed) string literal, an
identifier with its text, a comma, a bracket, or a one-character operator
(`=`, `+`, `.`). -/
inductive PyTok
  | str
  | name (text : String)
  | comma
  | openB
  | closeB
  | op (c : Char)
  deriving DecidableEq

/-- Pending state of the tokenizer: between tokens, inside a single-quoted
string literal, or inside an identifier (accumulated characters reversed). -/
inductive PendTok
  | none
  | inStr
  | inName (rev : List Char)
  deriving DecidableEq

/-- Identifier characters (the fragment contains only ASCII letters, digits
and underscores). -/
def isNameChar (c : Char) : Bool := c.isAlphanum || c == '_'

/-- Tokenize one character in between-tokens position: returns the emitted
tokens and the new pending state. Spaces and newlines separate tokens and
are otherwise ignored — inside a bracketed literal Python joins physical
lines implicitly, so a newline is mere whitespace. -/
def normalStep (c : Char) : List PyTok × PendTok :=
  if isNameChar c then ([], .inName [c])
  else if c = sq then ([], .inStr)
  else if c = ' ' ∨ c = '\n' then ([], .none)
  else if c = ',' then ([.comma], .none)
  else if c = '[' then ([.openB], .none)
  else if c = ']' then ([.closeB], .none)
  else ([.op c], .none)

/-- Tokenizer for the fragment's character classes. A quote directly after
accumulated name characters is a string-prefix (the fragment's
`f'-p{password}'`), forming a single string token, as in Python's lexer. -/
def pyTokenizeAux : PendTok → List Char → List PyTok
  | .none, [] => []
  | .inStr, [] => []
  | .inName rev, [] => [.name (String.mk rev.reverse)]
  | .inStr, c :: cs =>
      if c = sq then .str :: pyTokenizeAux .none cs
      else pyTokenizeAux .inStr cs
  | .inName rev, c :: cs =>
      if isNameChar c then pyTokenizeAux (.inName (c :: rev)) cs
      else if c = sq then pyTokenizeAux .inStr cs
      else
        let (ts, p) := normalStep c
        .name (String.mk rev.reverse) :: (ts ++ pyTokenizeAux p cs)
  | .none, c :: cs =>
      let (ts, p) := normalStep c
      ts ++ pyTokenizeAux p cs

/-- Token stream of a source fragment. -/
def pyTokenize (s : String) : List PyTok := pyTokenizeAux .none s.data

/-- First pair of directly adjacent identifier tokens in a token stream, if
any. Two juxtaposed plain identifiers are underivable in Python's expression
grammar (adjacent STRING tokens would be legal implicit concatenation, which
is why only name-name adjacency is flagged; none of the fragment's
identifiers is a Python keyword). -/
def findAdjacentNames : List PyTok → Option (String × String)
  | .name a :: .name b :: _ => some (a, b)
  | _ :: rest => findAdjacentNames rest
  | [] => none

/-- Whether CPython's compiler can accept a fragment, as far as name-name
adjacency is concerned: a fragment whose token stream juxtaposes two plain
identifiers is a `SyntaxError`, and a syntax error anywhere in a module
makes loading the module fail as a whole. -/
def moduleCompiles (region : String) : Bool :=
  (findAdjacentNames (pyTokenize region)).isNone

/-- Outcome of invoking `python3 BrootFile.py ...`: CPython compiles the
whole module first and executes nothing — no import, no class body, no
`main()` — if compilation fails. -/
inductive ProgramStart
  | syntaxError
  | runs
  deriving DecidableEq

/-- Startup of `src/BrootFile.py`: the module runs only if its source
compiles; lines 84-89 are part of that source. -/
def startBrootFile : ProgramStart :=
  if moduleCompiles cmdLiteralRegion then .runs else .syntaxError

/-- The periodic progress report's speed computation (lines 223-225):
`speed = self.attempts / elapsed if elapsed > 0 else 0`. Elapsed time is
modelled by a rational number. -/
def progressSpeed (attempts : Nat) (elapsed : Rat) : Rat :=
  if 0 < elapsed then (attempts : Rat) / elapsed else 0

/-- The final report's speed computation (lines 389 and 400):
`brute_forcer.attempts/elapsed` with no guard. Python raises
`ZeroDivisionError` when `elapsed` is zero; the raise is modelled by
`none`. -/
def finalReportSpeed (attempts : Nat) (elapsed : Rat) : Option Rat :=
  if elapsed = 0 then none else some ((attempts : Rat) / elapsed)

/-- The kind of terminal output `main` produces. -/
inductive ReportKind
  | preconditionError
  | successReport
  | notFoundReport
  deriving DecidableEq

/-- The exit paths of `main` (lines 326-400): a missing target (lines
328-330) or missing wordlist (lines 332-334) prints an error and executes a
plain `return`; otherwise the run executes and the final report (lines
383-400) is the success report when `found` and the not-found report
otherwise. Every path leaves `main` by a plain `return` or by falling off
the end — `sys.exit` is never called and no exception escapes — so the
interpreter exits with status 0 in every case. The first component is the
report kind, the second the process exit status. -/
def mainReport (targetExists wordlistExists found : Bool) : ReportKind × Nat :=
  if !targetExists then (.preconditionError, 0)
  else if !wordlistExists then (.preconditionError, 0)
  else if found then (.successReport, 0)
  else (.notFoundReport, 0)

/-- `try_password_rar` (lines 113-130): when the `rarfile` import failed
(`RAR_SUPPORT` false), it prints the capability warning and returns `False`
— on every single call (lines 115-117); otherwise it runs the rarfile check
(lines 119-128), any exception yielding `False` (lines 129-130). The second
component counts the warning lines printed by this call. -/
def try_password_rar (rarSupport : Bool) (rarVerify : String → Bool)
    (password : String) : Bool × Nat :=
  if rarSupport then (rarVerify password, 0) else (false, 1)

/-- `brute_force_single` on a rar target, additionally counting the
capability-warning lines printed by `try_password_rar` during the run: the
loop of lines 243-250 with `try_password` dispatching to `try_password_rar`
(line 206). The second component of state and result is the running count of
warning lines. -/
def singleLoopRar (rarSupport : Bool) (rarVerify : String → Bool) :
    BFState → Nat → List String → BFState × Nat
  | s, w, [] => (s, w)
  | s, w, raw :: rest =>
    if s.found then (s, w)
    else
      if pyStrip raw = "" then singleLoopRar rarSupport rarVerify s w rest
      else
        match try_password_rar rarSupport rarVerify (pyStrip raw) with
        | (true, dw) =>
            ({ found := true, password := some (pyStrip raw),
               attempts := s.attempts + 1 }, w + dw)
        | (false, dw) =>
            singleLoopRar rarSupport rarVerify
              { s with attempts := s.attempts + 1 } (w + dw) rest

/-- A full single-threaded run on a rar target, counting printed
capability warnings. -/
def singleRunRar (rarSupport : Bool) (rarVerify : String → Bool)
    (lines : List String) : BFState × Nat :=
  singleLoopRar rarSupport rarVerify initState 0 lines

/-- Running a rar-target wordlist without rarfile support: every non-empty
candidate prints one warning and fails, so the run never finds and the
warning count equals the number of non-empty candidates. -/
lemma singleLoopRar_no_support (rarVerify : String → Bool) :
    ∀ (lines : List String) (s : BFState) (w : Nat), s.found = false →
    singleLoopRar false rarVerify s w lines
      = (⟨false, s.password, s.attempts + nonEmptyCount lines⟩,
         w + nonEmptyCount lines) := by
  intro lines
  induction lines with
  | nil =>
      rintro ⟨sf, sp, sa⟩ w hs
      have hsf : sf = false := hs
      subst hsf
      simp [singleLoopRar, nonEmptyCount]
  | cons l ls ih =>
      rintro ⟨sf, sp, sa⟩ w hs
      have hsf : sf = false := hs
      subst hsf
      rw [singleLoopRar, if_neg (by simp)]
      by_cases hl : pyStrip l = ""
      · rw [if_pos hl, ih ⟨false, sp, sa⟩ w rfl]
        simp [nonEmptyCount, hl]
      · rw [if_neg hl]
        show singleLoopRar false rarVerify ⟨false, sp, sa + 1⟩ (w + 1) ls = _
        rw [ih ⟨false, sp, sa + 1⟩ (w + 1) rfl]
        simp only [nonEmptyCount, if_neg hl]
        rw [Nat.add_assoc, Nat.add_assoc]

/-! ### The claims -/

/-- C1: in sequential mode, if the verifier reports `Correct` for no
candidate (no stripped line dispatches to `ret true`; when a trial raises,
the exception is one the handler can swallow, i.e. `kdbx` holds — an
uncaught raise is claim C6's territory), the run terminates not-found with
`found = false` and the final `attempts` counter equal to the number of
wordlist lines that are non-empty after stripping; empty-after-strip lines
are skipped and never increment `attempts`. -/
theorem c1_exhausted_attempts_eq_nonempty_lines (kdbx : Bool)
    (dispatch : String → PyResult) (lines : List String)
    (hnc : ∀ l ∈ lines, pyStrip l ≠ "" → dispatch (pyStrip l) ≠ .ret true)
    (hnx : ∀ l ∈ lines, pyStrip l ≠ "" → dispatch (pyStrip l) = .exn →
      kdbx = true) :
    singleRun kdbx dispatch lines
      = .finished ⟨false, none, nonEmptyCount lines⟩ := by
  have h := singleLoop_exhaust kdbx dispatch lines initState rfl hnc hnx
  simpa [singleRun, initState] using h

/-- Witness for C1 at the spec's scenario: wordlist `["a","b","c"]`, true
password `"zzz"` → result Exhausted with `attempts = 3`. -/
theorem c1_exhausted_attempts_eq_nonempty_lines_witness :
    singleRun true (fun p => .ret (p == "zzz")) ["a", "b", "c"]
      = .finished ⟨false, none, 3⟩ := by
  have h := c1_exhausted_attempts_eq_nonempty_lines true
    (fun p => .ret (p == "zzz")) ["a", "b", "c"] (by decide) (by decide)
  rw [h]
  decide

/-- C2: in sequential mode, when the first verified-`Correct` candidate sits
at 1-indexed line position `k = pre.length + 1` (every earlier non-empty
line dispatches to not-`Correct`, without an uncaught raise), the run ends
`Found` with `winningPassword` the stripped candidate and
`attempts = nonEmptyCount pre + 1 ≤ k`. -/
theorem c2_found_at_first_correct_position (kdbx : Bool)
    (dispatch : String → PyResult) (pre : List String) (cand : String)
    (post : List String)
    (hnc : ∀ l ∈ pre, pyStrip l ≠ "" → dispatch (pyStrip l) ≠ .ret true)
    (hnx : ∀ l ∈ pre, pyStrip l ≠ "" → dispatch (pyStrip l) = .exn →
      kdbx = true)
    (hcand : pyStrip cand ≠ "")
    (hcorrect : dispatch (pyStrip cand) = .ret true) :
    singleRun kdbx dispatch (pre ++ cand :: post)
      = .finished ⟨true, some (pyStrip cand), nonEmptyCount pre + 1⟩
    ∧ nonEmptyCount pre + 1 ≤ pre.length + 1 := by
  constructor
  · have hpre := singleLoop_exhaust kdbx dispatch pre initState rfl hnc hnx
    have happ := singleLoop_append kdbx dispatch (cand :: post) pre initState
      ⟨false, initState.password, initState.attempts + nonEmptyCount pre⟩
      hpre rfl
    have hstep : tryPassword kdbx dispatch false (0 + nonEmptyCount pre) cand
        = (0 + nonEmptyCount pre + 1, .ret true) := by
      unfold tryPassword
      rw [if_neg (by simp [hcand]), hcorrect]
    unfold singleRun
    rw [happ, singleLoop, if_neg (by simp)]
    dsimp only [initState]
    rw [hstep]
    show RunResult.finished ⟨true, some (pyStrip cand), 0 + nonEmptyCount pre + 1⟩
      = RunResult.finished ⟨true, some (pyStrip cand), nonEmptyCount pre + 1⟩
    simp
  · have := nonEmptyCount_le_length pre
    omega

/-- Witness for C2 at the spec's scenario: wordlist
`["wrong1","wrong2","correct","wrong3"]`, true password `"correct"` →
Found with `winningPassword = "correct"` and `attempts = 3 ≤ 3`. -/
theorem c2_found_at_first_correct_position_witness :
    singleRun true (fun p => .ret (p == "correct"))
        (["wrong1", "wrong2"] ++ "correct" :: ["wrong3"])
      = .finished ⟨true, some "correct", 3⟩
    ∧ (3 : Nat) ≤ 3 := by
  have h := c2_found_at_first_correct_position true
    (fun p => .ret (p == "correct")) ["wrong1", "wrong2"] "correct"
    ["wrong3"] (by decide) (by decide) (by decide) (by decide)
  refine ⟨?_, by decide⟩
  rw [h.1]
  decide

/-- C3: `found = true` implies the stored winning password is a non-empty
string that the dispatch verified `Correct` — no fabricated success — at
termination and (by instantiating `lines` with any prefix, respectively by
reachability of every intermediate configuration) at every point of the
run, in sequential and in worker-pool mode. -/
theorem c3_found_implies_verified_password (kdbx : Bool)
    (dispatch : String → PyResult) :
    (∀ (lines : List String) (s : BFState),
        (singleRun kdbx dispatch lines = .finished s ∨
         singleRun kdbx dispatch lines = .crashed s) →
        s.found = true →
        ∃ p, s.password = some p ∧ p ≠ "" ∧ dispatch p = .ret true)
  ∧ (∀ (lines : List String) (n : Nat) (c : MultiConfig),
        MultiReach kdbx dispatch (initMulti lines n) c →
        c.found = true →
        ∃ p, c.password = some p ∧ p ≠ "" ∧ dispatch p = .ret true) := by
  constructor
  · intro lines s h hf
    have hinit : StateInv dispatch initState.found initState.password := by
      intro hf0
      cases hf0
    exact singleLoop_inv kdbx dispatch lines initState s hinit h hf
  · intro lines n c hreach hf
    obtain ⟨sched, rfl⟩ := hreach
    exact (minv_runSched kdbx dispatch sched (initMulti lines n)
      (minv_init kdbx dispatch lines n)).1 hf

/-- Witness for C3: the sequential run on wordlist `["pw"]` with true
password `"pw"` ends found, and the theorem yields the verified non-empty
winning password. -/
theorem c3_found_implies_verified_password_witness :
    ∃ p, BFState.password ⟨true, some "pw", 1⟩ = some p ∧ p ≠ "" ∧
      (fun q => PyResult.ret (q == "pw")) p = .ret true :=
  (c3_found_implies_verified_password true (fun q => .ret (q == "pw"))).1
    ["pw"] ⟨true, some "pw", 1⟩ (Or.inl (by decide)) rfl

/-- C4 counterexample: in a 1-worker run the worker finds the password and
sets `found = True`; the `KeyboardInterrupt` handler of `brute_force_multi`
(line 311) then executes `brute_forcer.found = False`, resetting `found`
from true back to false — refuting "once true, remains true for the rest of
the run (including cancellation handling)". -/
theorem c4_cancel_resets_found_counterexample :
    (runSched true (fun _ => .ret true) (initMulti ["a"] 1)
        [.work 0, .work 0, .work 0]).found = true
  ∧ (runSched true (fun _ => .ret true) (initMulti ["a"] 1)
        [.work 0, .work 0, .work 0, .cancel]).found = false := by
  decide

/-- C4 (amended): no worker action ever resets `found` from true to false —
every branch of `wstep` preserves a true flag; the only reset in the program
is the multi-threaded `KeyboardInterrupt` handler (line 311, the `cancel`
step), which unconditionally sets `found` to false. -/
theorem c4_found_reset_only_by_interrupt_handler (kdbx : Bool)
    (dispatch : String → PyResult) :
    (∀ (c : MultiConfig) (i : Nat), c.found = true →
        (wstep kdbx dispatch c i).found = true)
  ∧ (∀ c : MultiConfig, (mstep kdbx dispatch c .cancel).found = false) :=
  ⟨fun c i hf => wstep_found_mono kdbx dispatch c i hf, fun _ => rfl⟩

/-- Witness for C4 (amended) at a concrete configuration with `found`
already true. -/
theorem c4_found_reset_only_by_interrupt_handler_witness :
    (wstep true (fun _ => .ret true)
      ⟨true, some "a", 1, [], [.idle]⟩ 0).found = true :=
  (c4_found_reset_only_by_interrupt_handler true (fun _ => .ret true)).1
    ⟨true, some "a", 1, [], [.idle]⟩ 0 rfl

/-- C5 counterexample: workers 0 and 1 both verify their candidate correct
before either claims the flag; after worker 0's lock-guarded write,
`found = true` and `winningPassword = "a"`, yet worker 1's later write
overwrites the winning password with `"b"` — refuting first-writer-wins. -/
theorem c5_second_writer_overwrites_counterexample :
    (runSched true (fun _ => .ret true) (initMulti ["a", "b"] 2)
        [.work 0, .work 1, .work 0, .work 1, .work 0]).found = true
  ∧ (runSched true (fun _ => .ret true) (initMulti ["a", "b"] 2)
        [.work 0, .work 1, .work 0, .work 1, .work 0]).password = some "a"
  ∧ (runSched true (fun _ => .ret true) (initMulti ["a", "b"] 2)
        [.work 0, .work 1, .work 0, .work 1, .work 0, .work 1]).password
      = some "b" := by
  decide

/-- C5 (amended): the lock-guarded success update of `worker` (lines
263-265) is unconditional — a worker whose `try_password` returned `True`
for candidate `raw` installs `found = True` and `password = raw.strip()`
even when `found` is already true. Retention is therefore last-writer-wins
among trials in flight, not first-writer-wins; state is still never
corrupted beyond that (the installed password is always one the dispatch
verified, per C3's invariant). -/
theorem c5_success_update_is_unconditional (kdbx : Bool)
    (dispatch : String → PyResult) (c : MultiConfig) (i : Nat) (raw : String)
    (hw : c.workers.get? i = some (.tried raw true)) :
    (wstep kdbx dispatch c i).found = true
  ∧ (wstep kdbx dispatch c i).password = some (pyStrip raw) := by
  unfold wstep
  rw [hw]
  exact ⟨rfl, rfl⟩

/-- Witness for C5 (amended): a worker holding a correct result overwrites
an already-claimed password. -/
theorem c5_success_update_is_unconditional_witness :
    (wstep true (fun _ => .ret true)
      ⟨true, some "a", 2, [], [.tried "b" true]⟩ 0).found = true
  ∧ (wstep true (fun _ => .ret true)
      ⟨true, some "a", 2, [], [.tried "b" true]⟩ 0).password
      = some (pyStrip "b") :=
  c5_success_update_is_unconditional true (fun _ => .ret true)
    ⟨true, some "a", 2, [], [.tried "b" true]⟩ 0 "b" rfl

/-- C6: with the pykeepass import absent (`KDBX_SUPPORT = False`), a trial
whose verification raises — e.g. the inline zip path raising `RuntimeError`
on a wrong password — ABORTS the single-threaded run: the except clause at
line 220 evaluates the unbound name `CredentialsError` and the resulting
`NameError` propagates (first conjunct: the run crashes, though `attempts`
was incremented and `found` not advanced). With the import present the same
trial is treated exactly like `Incorrect` (second conjunct). -/
theorem c6_indeterminate_crashes_run_without_pykeepass :
    singleRun false (fun _ => .exn) ["x"] = .crashed ⟨false, none, 1⟩
  ∧ singleRun true (fun _ => .exn) ["x"] = .finished ⟨false, none, 1⟩ := by
  decide

/-- C7 counterexample: at zero elapsed time the final report's speed
computation (lines 389 and 400) divides with no guard and raises
`ZeroDivisionError` (modelled `none`) — so not every speed computation of
the program is guarded. -/
theorem c7_final_speed_unguarded_counterexample :
    finalReportSpeed 7 0 = none := by
  simp [finalReportSpeed]

/-- C7 (amended): only the periodic progress report's speed computation
(line 225) is guarded — it reports 0 at zero elapsed time; the final
report's computation (lines 389/400) divides unconditionally, raising at
zero elapsed time and only succeeding when elapsed time is non-zero. -/
theorem c7_speed_guard_only_in_progress_report (a : Nat) (e : Rat) :
    progressSpeed a 0 = 0 ∧ finalReportSpeed a 0 = none
  ∧ (e ≠ 0 → finalReportSpeed a e = some ((a : Rat) / e)) := by
  refine ⟨by simp [progressSpeed], by simp [finalReportSpeed],
    fun he => by simp [finalReportSpeed, he]⟩

/-- Witness for C7 (amended) at `attempts = 7`, `elapsed = 2`. -/
theorem c7_speed_guard_only_in_progress_report_witness :
    finalReportSpeed 7 2 = some ((7 : Rat) / 2) :=
  (c7_speed_guard_only_in_progress_report 7 2).2.2 (by norm_num)

/-- C8 counterexample: a precondition error (missing target), a found run
and a not-found run all terminate with the same process exit status 0 —
the three outcomes are not distinguished by exit status. -/
theorem c8_exit_status_identical_counterexample :
    (mainReport false true false).2 = (mainReport true true true).2
  ∧ (mainReport true true false).2 = (mainReport true true true).2 := by
  decide

/-- C8 (amended): `main` distinguishes the three outcomes only in the kind
of report it prints; every path leaves `main` normally (`sys.exit` is never
called), so the process exit status is 0 for all outcomes. -/
theorem c8_outcomes_by_report_kind_not_exit_status :
    (∀ t w f : Bool, (mainReport t w f).2 = 0)
  ∧ (mainReport false true false).1 = .preconditionError
  ∧ (mainReport true false false).1 = .preconditionError
  ∧ (∀ f : Bool, (mainReport true true f).1
      = if f then .successReport else .notFoundReport) := by
  refine ⟨?_, rfl, rfl, ?_⟩
  · intro t w f
    cases t <;> cases w <;> cases f <;> rfl
  · intro f
    cases f <;> rfl

/-- C9 counterexample: a rar-target run without the rarfile library over a
two-candidate wordlist prints the capability-missing warning twice — more
than once per run, refuting "at most once per run". -/
theorem c9_two_warnings_in_one_run_counterexample :
    (singleRunRar false (fun _ => false) ["a", "b"]).2 = 2
  ∧ 1 < (singleRunRar false (fun _ => false) ["a", "b"]).2 := by
  decide

/-- C9 (amended): when the rarfile library is absent, `try_password_rar`
prints the capability warning on EVERY attempt (lines 115-117): a full
sequential run over a wordlist prints exactly as many warnings as there are
non-empty candidates (and can never find), not at most one per run. -/
theorem c9_capability_warning_printed_per_attempt (rarVerify : String → Bool)
    (lines : List String) :
    singleRunRar false rarVerify lines
      = (⟨false, none, nonEmptyCount lines⟩, nonEmptyCount lines) := by
  have h := singleLoopRar_no_support rarVerify lines initState 0 rfl
  simpa [singleRunRar, initState] using h

/-- C10 counterexample: the claim asserts that the `cmd` construction at
lines 84-89 executes at run time, references the undefined name `y`, and so
always takes the exception branch of lines 108-109 — presupposing that the
region compiles into runtime code. It does not: tokenizing the exact source
text of lines 84-89 exposes two directly adjacent identifiers (the missing
comma), so CPython rejects the module with `SyntaxError` at compile time and
the asserted runtime mechanism never exists. -/
theorem c10_cmd_region_not_compilable_counterexample :
    moduleCompiles cmdLiteralRegion = false := by decide

/-- C10 (amended): the `cmd` list literal of `try_password_7z` (lines 84-89)
is missing a comma between the bare name `y` (end of line 87) and
`self.target_file` (line 88); under implicit line joining the identifier `y`
directly abuts the identifier `self`, which Python's grammar cannot derive,
so CPython rejects the whole module with a compile-time `SyntaxError` and
the program never starts: no verifier runs and no run on any target — 7z or
otherwise — exists, so in particular a 7z target can never produce a Found
outcome, vacuously. -/
theorem c10_missing_comma_is_compile_time_syntax_error :
    findAdjacentNames (pyTokenize cmdLiteralRegion) = some ("y", "self")
  ∧ startBrootFile = .syntaxError := by decide

end BrootFile
